import Mathlib

/-!
Shallow embedding of the core logic of the `bestfit-chatbot` repository:
the WordPress voice-chat client identity/session logic
(`src/lib/wordpress-client.ts`, two revisions of the class in the file),
the voice conversation loop and message handling of
`src/components/voice-chat.tsx`, and the recorder hook
`src/hooks/use-voice-recorder.ts`.

Browser facilities (localStorage, the DOM, promises, timers) are modelled
explicitly: localStorage keys become `Option`-valued fields of a state
record, timers become counted pending callbacks, and a promise is a small
state machine that can settle at most once.
-/

namespace BestFit

/-- JS truthiness of a nullable string value: `null`/`undefined` (here
`none`) and the empty string are falsy; every other string is truthy. -/
def truthy : Option String → Bool
  | none => false
  | some s => if s = "" then false else true

/-- Auth record stored under the `bfc_auth` localStorage key
(`BFCAuthData` in `src/lib/wordpress-client.ts`); only `user_id` matters
to the identity logic, the remaining fields are display data. -/
structure BFCAuthData where
  user_id : String
deriving DecidableEq, Repr

namespace V1

/-- State of the first `WordPressVoiceClient` revision together with the
localStorage keys it reads and writes: `auth` is the `bfc_auth` key,
`legacyUserId` the in-memory field of the class, `vcUserId` the
`vc_user_id` key. -/
structure ClientState where
  auth : Option BFCAuthData
  legacyUserId : Option String
  vcUserId : Option String
deriving DecidableEq, Repr

/-- `getAuthenticatedUserId`: `auth?.user_id || null` — an empty stored
`user_id` is falsy and yields `null`. -/
def getAuthenticatedUserId (s : ClientState) : Option String :=
  match s.auth with
  | some a => if a.user_id = "" then none else some a.user_id
  | none => none

/-- `isAuthenticated`: stored auth present with a defined `user_id`. -/
def isAuthenticated (s : ClientState) : Bool :=
  s.auth.isSome

/-- `WordPressVoiceClient.getUserId` (first revision): authenticated id
first, then the in-memory legacy id, then the `vc_user_id` key, which is
cached into the in-memory field when found. Returns the id and the
possibly updated state. -/
def getUserId (s : ClientState) : Option String × ClientState :=
  match getAuthenticatedUserId s with
  | some a => (some a, s)
  | none =>
    if truthy s.legacyUserId then (s.legacyUserId, s)
    else if truthy s.vcUserId then (s.vcUserId, { s with legacyUserId := s.vcUserId })
    else (none, s)

/-- `WordPressVoiceClient.setUserId` (first revision): unconditionally
stores the guest id in memory and under `vc_user_id`. -/
def setUserId (s : ClientState) (id : String) : ClientState :=
  { s with legacyUserId := some id, vcUserId := some id }

/-- Result of `createSession`: the `user_id` field sent in the request
body and the client state after the call. -/
structure SessionResult where
  sent : Option String
  state : ClientState
deriving DecidableEq, Repr

/-- `WordPressVoiceClient.createSession` (first revision).
`respUserId` models `data.session?.user_id` of the backend response
(`none` when the session object or the field is missing). The existing
id is read first and sent as-is; a server id is stored only when no id
existed, the response carries a truthy one, and the user is not
authenticated. -/
def createSession (s : ClientState) (respUserId : Option String) : SessionResult :=
  let r := getUserId s
  let s2 :=
    if !truthy r.1 && truthy respUserId && !isAuthenticated r.2 then
      setUserId r.2 (respUserId.getD "")
    else r.2
  { sent := r.1, state := s2 }

/-- A sequence of `createSession` calls with the given backend responses:
the list of identities sent, and the final client state. -/
def createSessionTrace (s : ClientState) : List (Option String) → List (Option String) × ClientState
  | [] => ([], s)
  | r :: rs =>
    ((createSession s r).sent :: (createSessionTrace (createSession s r).state rs).1,
     (createSessionTrace (createSession s r).state rs).2)

end V1

namespace V2

/-- State of the second `WordPressVoiceClient` revision ("CLEANED
VERSION"): the in-memory `userId` field and the `vc_user_id`
localStorage key. This revision has no auth integration. -/
structure ClientState where
  userId : Option String
  vcUserId : Option String
deriving DecidableEq, Repr

/-- `getUserId` (second revision): memory first, then `vc_user_id`,
cached into memory when found. -/
def getUserId (s : ClientState) : Option String × ClientState :=
  if truthy s.userId then (s.userId, s)
  else if truthy s.vcUserId then (s.vcUserId, { s with userId := s.vcUserId })
  else (none, s)

/-- `setUserId` (second revision, private): stores in memory and under
`vc_user_id`. -/
def setUserId (_ : ClientState) (id : String) : ClientState :=
  { userId := some id, vcUserId := some id }

/-- `createSession` (second revision): sends the existing id; stores a
truthy server id only when no id existed before the call. -/
def createSession (s : ClientState) (respUserId : Option String) : Option String × ClientState :=
  let r := getUserId s
  let s2 :=
    if !truthy r.1 && truthy respUserId then setUserId r.2 (respUserId.getD "")
    else r.2
  (r.1, s2)

/-- A sequence of `createSession` calls (second revision). -/
def createSessionTrace (s : ClientState) : List (Option String) → List (Option String) × ClientState
  | [] => ([], s)
  | r :: rs =>
    ((createSession s r).1 :: (createSessionTrace (createSession s r).2 rs).1,
     (createSessionTrace (createSession s r).2 rs).2)

end V2

-- =========================================================================
-- Conversation messages (`src/components/voice-chat.tsx`)
-- =========================================================================

/-- Message role. -/
inductive Role where
  | user
  | assistant
deriving DecidableEq, Repr

/-- A conversation message (`Message` in `voice-chat.tsx`): locally
generated id, role, content, and the `Date.now()` creation time. -/
structure Message where
  id : String
  role : Role
  content : String
  timestamp : Nat
deriving DecidableEq, Repr

/-- Whether `pat` is a prefix of `cs`. -/
def listPre : List Char → List Char → Bool
  | [], _ => true
  | _ :: _, [] => false
  | p :: ps, c :: cs => p = c && listPre ps cs

/-- Whether `pat` occurs as a contiguous run inside the list. -/
def listOccurs (pat : List Char) : List Char → Bool
  | [] => pat.isEmpty
  | c :: cs => listPre pat (c :: cs) || listOccurs pat cs

/-- JS `String.prototype.includes`: `pat` occurs as a substring of
`s`. -/
def containsSub (s pat : String) : Bool :=
  listOccurs pat.toList s.toList

/-- The error filter of `processVoiceAndContinue`:
`prev.filter(msg => !msg.content.includes('Processing'))` — it keeps
exactly the messages whose content does not contain `"Processing"`. -/
def removeProcessing (msgs : List Message) : List Message :=
  msgs.filter (fun m => !containsSub m.content "Processing")

/-- The optimistic placeholder appended by `processVoiceAndContinue`
before dispatching the recorded audio. -/
def processingPlaceholder (now : Nat) : Message :=
  { id := "user-" ++ toString now, role := .user, content := "🎤 Processing...", timestamp := now }

/-- JS whitespace characters relevant to `String.prototype.trim` here:
space, tab, line feed, carriage return, vertical tab, form feed. -/
def isJsWhitespace (c : Char) : Bool :=
  c = ' ' || c = '\t' || c = '\n' || c = '\r' || c = '\x0b' || c = '\x0c'

/-- JS `String.prototype.trim`: strip whitespace from both ends. -/
def jsTrim (s : String) : String :=
  ⟨((s.toList.dropWhile isJsWhitespace).reverse.dropWhile isJsWhitespace).reverse⟩

/-- The backend reply of the `/text` endpoint
(`TextMessageResponse`), restricted to the fields `sendTextMessage`
in `voice-chat.tsx` reads. -/
structure TextResponse where
  success : Bool
  ai_response : Option String
  error : Option String
deriving DecidableEq, Repr

/-- The component state touched by `sendTextMessage`. -/
structure ChatState where
  messages : List Message
  inputText : String
  isLoading : Bool
  errorBanner : Option String
  showWelcome : Bool
deriving DecidableEq, Repr

/-- Outcome of a `sendTextMessage` call: the new component state and the
message dispatched to the backend, if any. -/
structure SendOutcome where
  state : ChatState
  sent : Option String
deriving DecidableEq, Repr

/-- `sendTextMessage` from `voice-chat.tsx`, with the backend reply
passed in. Rejects blank input (`!text.trim()`) and in-flight requests
(`isLoading`); otherwise appends the trimmed user message, dispatches
`text`, and on success appends the assistant reply
(`response.ai_response || ''`); on failure it sets the error banner
(`response.error || 'Failed to get response'`) without touching the
appended user message. `now`/`now2` are `Date.now()` at dispatch and at
response time. -/
def sendTextMessage (c : ChatState) (text : String) (resp : TextResponse)
    (now now2 : Nat) : SendOutcome :=
  if jsTrim text = "" || c.isLoading then { state := c, sent := none }
  else
    let userMsg : Message :=
      { id := "user-" ++ toString now, role := .user, content := jsTrim text, timestamp := now }
    let c1 : ChatState :=
      { c with messages := c.messages ++ [userMsg], inputText := "",
               isLoading := true, errorBanner := none, showWelcome := false }
    if resp.success then
      let assistantMsg : Message :=
        { id := "assistant-" ++ toString now2, role := .assistant,
          content := resp.ai_response.getD "", timestamp := now2 }
      { state := { c1 with messages := c1.messages ++ [assistantMsg], isLoading := false },
        sent := some text }
    else
      { state := { c1 with
                   errorBanner := some (if truthy resp.error then resp.error.getD ""
                                        else "Failed to get response"),
                   isLoading := false },
        sent := some text }

-- =========================================================================
-- Voice recorder hook (`src/hooks/use-voice-recorder.ts`)
-- =========================================================================

/-- `VoiceRecorderState` of the hook. A blob is the list of buffered
chunks it was assembled from; chunks are byte lists. -/
structure VoiceRecorderState where
  isRecording : Bool
  isProcessing : Bool
  error : Option String
  audioBlob : Option (List (List Nat))
deriving DecidableEq, Repr

/-- The hook state together with its refs and the browser resources it
holds: `chunks` is `chunksRef`, `recorderActive` whether
`mediaRecorderRef` holds a non-inactive recorder, and `openStreams`
counts media streams acquired via `getUserMedia` whose tracks have not
been stopped. -/
structure Recorder where
  state : VoiceRecorderState
  chunks : List (List Nat)
  recorderActive : Bool
  openStreams : Nat
deriving DecidableEq, Repr

/-- `startRecording` (successful microphone acquisition). The function
has no `isRecording` guard: it clears `error`/`audioBlob`, acquires a
new stream (overwriting `streamRef` without stopping the previous
stream's tracks), empties the chunk buffer, installs a fresh
`MediaRecorder`, starts it, and sets `isRecording`. -/
def startRecording (r : Recorder) : Recorder :=
  { state := { isRecording := true, isProcessing := r.state.isProcessing,
               error := none, audioBlob := none },
    chunks := [],
    recorderActive := true,
    openStreams := r.openStreams + 1 }

/-- `stopRecording`: with no active recorder resolves `null`; otherwise
stops the current stream's tracks, assembles the buffered chunks into a
blob, clears the buffer and resolves the blob. -/
def stopRecording (r : Recorder) : Option (List (List Nat)) × Recorder :=
  if !r.recorderActive then
    (none, { r with state := { r.state with isRecording := false } })
  else
    let blob := r.chunks
    (some blob,
      { state := { isRecording := false, isProcessing := false,
                   error := r.state.error, audioBlob := some blob },
        chunks := [],
        recorderActive := false,
        openStreams := r.openStreams - 1 })

/-- `cancelRecording`: stops recorder and current stream tracks, drops
chunks and resets the state. -/
def cancelRecording (r : Recorder) : Recorder :=
  { state := { isRecording := false, isProcessing := false, error := none, audioBlob := none },
    chunks := [],
    recorderActive := false,
    openStreams := if r.recorderActive then r.openStreams - 1 else r.openStreams }

-- =========================================================================
-- Audio elements and stopAllAudio (`src/components/voice-chat.tsx`)
-- =========================================================================

/-- An `HTMLAudioElement`: whether it is attached to the document tree,
whether it is paused, and its playback position. -/
structure AudioElem where
  attached : Bool
  paused : Bool
  currentTime : Nat
deriving DecidableEq, Repr

/-- The audio elements the component has created (in creation order),
the index tracked by `audioRef`, and the `isSpeaking` flag. -/
structure AudioDom where
  elems : List AudioElem
  audioRef : Option Nat
  isSpeaking : Bool
deriving DecidableEq, Repr

/-- The element-creation effect of the component's `playAudio`: it
builds an element with `document.createElement('audio')` — which does
NOT attach it to the document — stores it in `audioRef` and starts
playback. `t` is the playback position the element has advanced to. -/
def playAudioStart (d : AudioDom) (t : Nat) : AudioDom :=
  { elems := d.elems ++ [{ attached := false, paused := false, currentTime := t }],
    audioRef := some d.elems.length,
    isSpeaking := true }

/-- Pause and reset the element at index `i`, if it exists. -/
def pauseAt (l : List AudioElem) (i : Nat) : List AudioElem :=
  match l.get? i with
  | some e => l.set i { e with paused := true, currentTime := 0 }
  | none => l

/-- `stopAllAudio`: `document.querySelectorAll('audio')` pauses and
resets the audio elements attached to the document tree, then the one
element held by `audioRef` is paused and reset, and `isSpeaking` is
cleared. -/
def stopAllAudio (d : AudioDom) : AudioDom :=
  let viaQuery := d.elems.map (fun e =>
    if e.attached then { e with paused := true, currentTime := 0 } else e)
  { elems := match d.audioRef with
             | some i => pauseAt viaQuery i
             | none => viaQuery,
    audioRef := d.audioRef,
    isSpeaking := false }

-- =========================================================================
-- Voice conversation loop (`src/components/voice-chat.tsx`)
-- =========================================================================

/-- The loop state: `voiceMode` is the live `voiceModeRef.current` cell
(kept in sync with the `voiceMode` state by `toggleVoiceMode` and the
effect), `isListening` the listening flag, `recording` the recorder's
`isRecording`, `pendingResumes` the number of scheduled
`setTimeout(() => startListening(), _)` callbacks not yet fired, and
`micOk` whether `getUserMedia` succeeds. -/
structure VoiceLoopState where
  voiceMode : Bool
  isListening : Bool
  recording : Bool
  pendingResumes : Nat
  micOk : Bool
deriving DecidableEq, Repr

/-- `startListening`: re-reads `voiceModeRef.current` and returns at
once when voice mode is off; otherwise sets the listening flag and
starts recording — on microphone denial it surfaces the error, turns
voice mode off and clears the flag. -/
def startListening (s : VoiceLoopState) : VoiceLoopState :=
  if !s.voiceMode then s
  else if s.micOk then { s with isListening := true, recording := true }
  else { s with voiceMode := false, isListening := false }

/-- The end-of-conversation branch of `toggleVoiceMode`: clears the
`voiceMode` state and the ref, stops listening, cancels an in-progress
recording and stops all audio. -/
def endVoiceMode (s : VoiceLoopState) : VoiceLoopState :=
  { s with voiceMode := false, isListening := false, recording := false }

/-- Events driving the loop once a voice request has been dispatched.
`toggle` is a `toggleVoiceMode` tap; `requestSettles success` is the
continuation of `processVoiceAndContinue` after the backend request (and
any playback) settles; `timerFires` is a scheduled `startListening`
timeout firing. -/
inductive VoiceEvent where
  | toggle
  | requestSettles (success : Bool)
  | timerFires
deriving DecidableEq, Repr

/-- One event step of the loop. The continuation of
`processVoiceAndContinue` re-reads `voiceModeRef.current` before
scheduling the resume timer on both the success path (500ms) and the
error path (1000ms); a firing timer runs `startListening`, which
re-reads the ref again. -/
def voiceStep (s : VoiceLoopState) : VoiceEvent → VoiceLoopState
  | .toggle =>
    if s.voiceMode then endVoiceMode s
    else startListening { s with voiceMode := true }
  | .requestSettles _ =>
    if s.voiceMode then { s with pendingResumes := s.pendingResumes + 1 } else s
  | .timerFires =>
    if s.pendingResumes = 0 then s
    else startListening { s with pendingResumes := s.pendingResumes - 1 }

/-- All states visited while folding the events, the initial one
included. -/
def voiceTrace (s : VoiceLoopState) : List VoiceEvent → List VoiceLoopState
  | [] => [s]
  | e :: es => s :: voiceTrace (voiceStep s e) es

-- =========================================================================
-- Audio playback promises (`playAudio` in `voice-chat.tsx` and in
-- `wordpress-client.ts`)
-- =========================================================================

/-- The state of a JS promise: it settles (resolves or rejects) at most
once; later `resolve`/`reject` calls are ignored. -/
inductive PromiseState where
  | pending
  | resolved
  | rejected
deriving DecidableEq, Repr

/-- A run of a `playAudio` call: the completion promise, the number of
times the promise actually settled, the `isSpeaking` flag (meaningless
for the client version, which has none), and whether the object URL
created for the blob is still live (unrevoked). -/
structure PlayRun where
  promise : PromiseState
  settleCount : Nat
  speaking : Bool
  urlLive : Bool
deriving DecidableEq, Repr

/-- A `resolve()` call: settles a pending promise, is a no-op
otherwise. -/
def doResolve (r : PlayRun) : PlayRun :=
  match r.promise with
  | .pending => { r with promise := .resolved, settleCount := r.settleCount + 1 }
  | _ => r

/-- A `reject(e)` call: settles a pending promise, is a no-op
otherwise. -/
def doReject (r : PlayRun) : PlayRun :=
  match r.promise with
  | .pending => { r with promise := .rejected, settleCount := r.settleCount + 1 }
  | _ => r

/-- Callbacks that can fire on a playing element: `onended`, `onerror`,
or the rejection of the `audio.play()` promise. -/
inductive PlayEvent where
  | ended
  | mediaError
  | playRejected
deriving DecidableEq, Repr

/-- Whether `atob` decodes the payload: every character is from the
base64 alphabet with `=` padding only at the end (at most two), and the
length is a multiple of four; otherwise `atob` throws
`InvalidCharacterError`. -/
def atobOk (s : String) : Bool :=
  let cs := s.toList
  let isB64 := fun c : Char =>
    (('A' ≤ c && c ≤ 'Z') || ('a' ≤ c && c ≤ 'z') || ('0' ≤ c && c ≤ '9')
      || c = '+' || c = '/')
  let body := cs.takeWhile isB64
  let pad := cs.drop body.length
  (pad.all (fun c => c = '=')) && pad.length ≤ 2 && cs.length % 4 = 0 && cs.length > 0

/-- A handler of the component's `playAudio`: `onended` and `onerror`
revoke the URL, clear `isSpeaking` and resolve; the `play().catch`
handler clears `isSpeaking` and resolves without revoking. -/
def componentHandle (r : PlayRun) : PlayEvent → PlayRun
  | .ended => doResolve { r with speaking := false, urlLive := false }
  | .mediaError => doResolve { r with speaking := false, urlLive := false }
  | .playRejected => doResolve { r with speaking := false }

/-- The component's `playAudio` on payload `s` when the callbacks in
`evs` fire, in order: sets `isSpeaking`, then either the `catch` branch
(invalid base64: clear `isSpeaking` and resolve, no element or URL is
created so no callback ever fires) or playback with the handlers
above. -/
def playAudio (s : String) (evs : List PlayEvent) : PlayRun :=
  let r0 : PlayRun := { promise := .pending, settleCount := 0, speaking := true, urlLive := false }
  if !atobOk s then doResolve { r0 with speaking := false }
  else evs.foldl componentHandle { r0 with urlLive := true }

/-- A handler of `WordPressVoiceClient.playAudio`: `onended` revokes and
resolves, `onerror` revokes and rejects; `audio.play()` has no rejection
handler installed, so its rejection settles nothing. -/
def clientHandle (r : PlayRun) : PlayEvent → PlayRun
  | .ended => doResolve { r with urlLive := false }
  | .mediaError => doReject { r with urlLive := false }
  | .playRejected => r

/-- `WordPressVoiceClient.playAudio`: invalid base64 makes `atob` throw
inside the executor's `try`, whose `catch` rejects the promise;
otherwise playback proceeds with the handlers above. -/
def clientPlayAudio (s : String) (evs : List PlayEvent) : PlayRun :=
  let r0 : PlayRun := { promise := .pending, settleCount := 0, speaking := false, urlLive := false }
  if !atobOk s then doReject r0
  else evs.foldl clientHandle { r0 with urlLive := true }

-- =========================================================================
-- Visit streak (`getStreakData` / `updateStreak` in `voice-chat.tsx`)
-- =========================================================================

/-- `UserStreak` of `voice-chat.tsx`. -/
structure UserStreak where
  currentStreak : Nat
  lastVisit : String
  totalVisits : Nat
deriving DecidableEq, Repr

/-- `getStreakData`: the record parsed from the `bfc_streak`
localStorage key; a missing key — and likewise a record that fails to
parse, both represented by `none` — yields the zero record. -/
def getStreakData (store : Option UserStreak) : UserStreak :=
  match store with
  | some r => r
  | none => { currentStreak := 0, lastVisit := "", totalVisits := 0 }

/-- Outcome of `updateStreak`: the returned record, the `bfc_streak`
store after the call, and whether `localStorage.setItem` ran. -/
structure StreakResult where
  result : UserStreak
  store : Option UserStreak
  wrote : Bool
deriving DecidableEq, Repr

/-- `updateStreak` (browser branch), with `today`/`yesterday` the two
`toDateString()` values it computes: a record already stamped today is
returned unchanged without writing; otherwise the streak is extended
(last visit yesterday), started fresh (no prior visit), or reset, and
the new record is written. -/
def updateStreak (today yesterday : String) (store : Option UserStreak) : StreakResult :=
  let current := getStreakData store
  if current.lastVisit = today then
    { result := current, store := store, wrote := false }
  else
    let newStreak : UserStreak :=
      if current.lastVisit = yesterday then
        { currentStreak := current.currentStreak + 1, lastVisit := today,
          totalVisits := current.totalVisits + 1 }
      else if current.lastVisit = "" then
        { currentStreak := 1, lastVisit := today, totalVisits := 1 }
      else
        { currentStreak := 1, lastVisit := today, totalVisits := current.totalVisits + 1 }
    { result := newStreak, store := some newStreak, wrote := true }

-- =========================================================================
-- Helper lemmas: identity client, first revision
-- =========================================================================

theorem truthy_of_ne (s : String) (h : s ≠ "") : truthy (some s) = true := by
  simp [truthy, h]

theorem ne_of_truthy (s : String) (h : truthy (some s) = true) : s ≠ "" := by
  by_cases hs : s = "" <;> simp [truthy, hs] at h ⊢

theorem v1_auth_ne_empty (s : V1.ClientState) (a : String)
    (h : V1.getAuthenticatedUserId s = some a) : a ≠ "" := by
  unfold V1.getAuthenticatedUserId at h
  cases hs : s.auth with
  | none => rw [hs] at h; exact absurd h (by simp)
  | some b =>
    rw [hs] at h
    by_cases hb : b.user_id = ""
    · simp [hb] at h
    · simp [hb] at h; exact h ▸ hb

theorem v1_auth_only_depends_on_auth (s t : V1.ClientState) (h : s.auth = t.auth) :
    V1.getAuthenticatedUserId s = V1.getAuthenticatedUserId t := by
  unfold V1.getAuthenticatedUserId
  rw [h]

theorem v1_getUserId_fields (s : V1.ClientState) :
    (V1.getUserId s).2.auth = s.auth ∧ (V1.getUserId s).2.vcUserId = s.vcUserId := by
  unfold V1.getUserId
  cases V1.getAuthenticatedUserId s with
  | some a => simp
  | none =>
    by_cases h1 : truthy s.legacyUserId
    · simp [h1]
    · by_cases h2 : truthy s.vcUserId <;> simp [h1, h2]

theorem v1_getUserId_ne_empty (s s' : V1.ClientState) (uid : String)
    (h : V1.getUserId s = (some uid, s')) : uid ≠ "" := by
  unfold V1.getUserId at h
  cases ha : V1.getAuthenticatedUserId s with
  | some a =>
    rw [ha] at h
    have : a = uid := by simpa using congrArg Prod.fst h
    exact this ▸ v1_auth_ne_empty s a ha
  | none =>
    rw [ha] at h
    by_cases h1 : truthy s.legacyUserId
    · rw [if_pos h1] at h
      have : s.legacyUserId = some uid := by simpa using congrArg Prod.fst h
      exact ne_of_truthy uid (this ▸ h1)
    · rw [if_neg h1] at h
      by_cases h2 : truthy s.vcUserId
      · rw [if_pos h2] at h
        have : s.vcUserId = some uid := by simpa using congrArg Prod.fst h
        exact ne_of_truthy uid (this ▸ h2)
      · rw [if_neg h2] at h
        exact absurd (congrArg Prod.fst h) (by simp)

theorem v1_getUserId_stable (s : V1.ClientState) :
    V1.getUserId (V1.getUserId s).2 = V1.getUserId s := by
  cases ha : V1.getAuthenticatedUserId s with
  | some a =>
    have h2 : V1.getUserId s = (some a, s) := by unfold V1.getUserId; rw [ha]
    rw [h2]
    exact h2
  | none =>
    by_cases h1 : truthy s.legacyUserId
    · have h2 : V1.getUserId s = (s.legacyUserId, s) := by
        unfold V1.getUserId; rw [ha, if_pos h1]
      rw [h2]
      exact h2
    · by_cases hv : truthy s.vcUserId
      · have h2 : V1.getUserId s = (s.vcUserId, { s with legacyUserId := s.vcUserId }) := by
          unfold V1.getUserId; rw [ha, if_neg h1, if_pos hv]
        rw [h2]
        have ha' : V1.getAuthenticatedUserId { s with legacyUserId := s.vcUserId } = none :=
          (v1_auth_only_depends_on_auth { s with legacyUserId := s.vcUserId } s rfl).trans ha
        unfold V1.getUserId
        rw [ha', if_pos hv]
      · have h2 : V1.getUserId s = (none, s) := by
          unfold V1.getUserId; rw [ha, if_neg h1, if_neg hv]
        rw [h2]
        exact h2

theorem v1_createSession_of_some (s s' : V1.ClientState) (uid : String) (r : Option String)
    (h : V1.getUserId s = (some uid, s')) :
    V1.createSession s r = { sent := some uid, state := s' } := by
  have hne := v1_getUserId_ne_empty s s' uid h
  unfold V1.createSession
  rw [h]
  simp [truthy_of_ne uid hne]

theorem v1_trace_fixed (uid : String) (resps : List (Option String)) :
    ∀ s : V1.ClientState, V1.getUserId s = (some uid, s) →
      V1.createSessionTrace s resps = (resps.map (fun _ => some uid), s) := by
  induction resps with
  | nil => intro s _; rfl
  | cons r rs ih =>
    intro s h
    unfold V1.createSessionTrace
    rw [v1_createSession_of_some s s uid r h]
    simp [ih s h]

-- =========================================================================
-- Helper lemmas: identity client, second revision
-- =========================================================================

theorem v2_getUserId_fields (s : V2.ClientState) :
    (V2.getUserId s).2.vcUserId = s.vcUserId := by
  unfold V2.getUserId
  by_cases h1 : truthy s.userId
  · simp [h1]
  · by_cases h2 : truthy s.vcUserId <;> simp [h1, h2]

theorem v2_getUserId_ne_empty (s s' : V2.ClientState) (uid : String)
    (h : V2.getUserId s = (some uid, s')) : uid ≠ "" := by
  unfold V2.getUserId at h
  by_cases h1 : truthy s.userId
  · rw [if_pos h1] at h
    have : s.userId = some uid := by simpa using congrArg Prod.fst h
    exact ne_of_truthy uid (this ▸ h1)
  · rw [if_neg h1] at h
    by_cases h2 : truthy s.vcUserId
    · rw [if_pos h2] at h
      have : s.vcUserId = some uid := by simpa using congrArg Prod.fst h
      exact ne_of_truthy uid (this ▸ h2)
    · rw [if_neg h2] at h
      exact absurd (congrArg Prod.fst h) (by simp)

theorem v2_getUserId_stable (s : V2.ClientState) :
    V2.getUserId (V2.getUserId s).2 = V2.getUserId s := by
  by_cases h1 : truthy s.userId
  · have h2 : V2.getUserId s = (s.userId, s) := by unfold V2.getUserId; rw [if_pos h1]
    rw [h2]
    exact h2
  · by_cases hv : truthy s.vcUserId
    · have h2 : V2.getUserId s = (s.vcUserId, { s with userId := s.vcUserId }) := by
        unfold V2.getUserId; rw [if_neg h1, if_pos hv]
      rw [h2]
      unfold V2.getUserId
      rw [if_pos hv]
    · have h2 : V2.getUserId s = (none, s) := by
        unfold V2.getUserId; rw [if_neg h1, if_neg hv]
      rw [h2]
      exact h2

theorem v2_createSession_of_some (s s' : V2.ClientState) (uid : String) (r : Option String)
    (h : V2.getUserId s = (some uid, s')) :
    V2.createSession s r = (some uid, s') := by
  have hne := v2_getUserId_ne_empty s s' uid h
  unfold V2.createSession
  rw [h]
  simp [truthy_of_ne uid hne]

theorem v2_trace_fixed (uid : String) (resps : List (Option String)) :
    ∀ s : V2.ClientState, V2.getUserId s = (some uid, s) →
      V2.createSessionTrace s resps = (resps.map (fun _ => some uid), s) := by
  induction resps with
  | nil => intro s _; rfl
  | cons r rs ih =>
    intro s h
    unfold V2.createSessionTrace
    rw [v2_createSession_of_some s s uid r h]
    simp [ih s h]

/-- C1: once `getUserId` resolves a non-null identity, every subsequent
`createSession` call (in both client revisions) sends exactly that
identity to the backend; the stored identity — the `vc_user_id` and
`bfc_auth` keys, and what `getUserId` resolves — is unchanged after the
calls, whatever `session.user_id` each backend response carries. -/
theorem createSession_keeps_identity
    (s s' : V1.ClientState) (t t' : V2.ClientState) (uid vid : String)
    (resps rv : List (Option String))
    (h1 : V1.getUserId s = (some uid, s'))
    (h2 : V2.getUserId t = (some vid, t')) :
    ((V1.createSessionTrace s resps).1 = resps.map (fun _ => some uid) ∧
     (V1.getUserId (V1.createSessionTrace s resps).2).1 = some uid ∧
     (V1.createSessionTrace s resps).2.vcUserId = s.vcUserId ∧
     (V1.createSessionTrace s resps).2.auth = s.auth) ∧
    ((V2.createSessionTrace t rv).1 = rv.map (fun _ => some vid) ∧
     (V2.getUserId (V2.createSessionTrace t rv).2).1 = some vid ∧
     (V2.createSessionTrace t rv).2.vcUserId = t.vcUserId) := by
  have hs' : V1.getUserId s' = (some uid, s') := by
    have := v1_getUserId_stable s
    rw [h1] at this
    exact this
  have ht' : V2.getUserId t' = (some vid, t') := by
    have := v2_getUserId_stable t
    rw [h2] at this
    exact this
  have hf1 := v1_getUserId_fields s
  have hf2 := v2_getUserId_fields t
  rw [h1] at hf1
  rw [h2] at hf2
  constructor
  · cases resps with
    | nil =>
      refine ⟨rfl, ?_, rfl, rfl⟩
      show (V1.getUserId s).1 = some uid
      rw [h1]
    | cons r rs =>
      have hstep : V1.createSessionTrace s (r :: rs) =
          (some uid :: rs.map (fun _ => some uid), s') := by
        unfold V1.createSessionTrace
        rw [v1_createSession_of_some s s' uid r h1]
        simp [v1_trace_fixed uid rs s' hs']
      rw [hstep]
      exact ⟨by simp, by rw [hs'], hf1.2, hf1.1⟩
  · cases rv with
    | nil =>
      refine ⟨rfl, ?_, rfl⟩
      show (V2.getUserId t).1 = some vid
      rw [h2]
    | cons r rs =>
      have hstep : V2.createSessionTrace t (r :: rs) =
          (some vid :: rs.map (fun _ => some vid), t') := by
        unfold V2.createSessionTrace
        rw [v2_createSession_of_some t t' vid r h2]
        simp [v2_trace_fixed vid rs t' ht']
      rw [hstep]
      exact ⟨by simp, by rw [ht'], hf2⟩

/-- Witness for `createSession_keeps_identity`: a guest client with
stored id `"g1"` (first revision) and `"g2"` (second revision) sends
exactly that id in a `createSession` call whose backend response
suggests a different id. -/
theorem createSession_keeps_identity_witness :
    (V1.createSessionTrace ⟨none, some "g1", some "g1"⟩ [some "server-alt"]).1 = [some "g1"] ∧
    (V2.createSessionTrace ⟨some "g2", some "g2"⟩ [some "server-alt"]).1 = [some "g2"] := by
  have h := createSession_keeps_identity
    ⟨none, some "g1", some "g1"⟩ ⟨none, some "g1", some "g1"⟩
    ⟨some "g2", some "g2"⟩ ⟨some "g2", some "g2"⟩
    "g1" "g2" [some "server-alt"] [some "server-alt"]
    (by decide) (by decide)
  exact ⟨h.1.1, h.2.1⟩

/-- C6 counterexample: with an authenticated identity `"auth-1"` stored
and guest identity `"guest-1"` persisted under `vc_user_id`,
`setUserId "guest-2"` is not a no-op — it overwrites the persisted
guest identity with `"guest-2"`. -/
theorem setUserId_overwrites_guest_store_when_authenticated :
    V1.isAuthenticated ⟨some ⟨"auth-1"⟩, none, some "guest-1"⟩ = true ∧
    V1.getAuthenticatedUserId ⟨some ⟨"auth-1"⟩, none, some "guest-1"⟩ = some "auth-1" ∧
    (V1.setUserId ⟨some ⟨"auth-1"⟩, none, some "guest-1"⟩ "guest-2").vcUserId = some "guest-2" ∧
    (V1.setUserId ⟨some ⟨"auth-1"⟩, none, some "guest-1"⟩ "guest-2").vcUserId ≠
      (⟨some ⟨"auth-1"⟩, none, some "guest-1"⟩ : V1.ClientState).vcUserId := by
  refine ⟨rfl, by decide, rfl, by decide⟩

/-- C6 (amended): while an authenticated identity exists, `setUserId`
still overwrites the persisted guest identity, but the identity
returned by subsequent `getUserId` calls is unchanged — the
authenticated identity keeps priority. -/
theorem setUserId_keeps_getUserId_when_authenticated
    (s : V1.ClientState) (id a : String)
    (h : V1.getAuthenticatedUserId s = some a) :
    (V1.getUserId (V1.setUserId s id)).1 = some a ∧ (V1.getUserId s).1 = some a := by
  have h' : V1.getAuthenticatedUserId (V1.setUserId s id) = some a :=
    (v1_auth_only_depends_on_auth (V1.setUserId s id) s rfl).trans h
  constructor
  · simp [V1.getUserId, h']
  · simp [V1.getUserId, h]

/-- Witness for `setUserId_keeps_getUserId_when_authenticated`:
concrete authenticated state. -/
theorem setUserId_keeps_getUserId_when_authenticated_witness :
    (V1.getUserId (V1.setUserId ⟨some ⟨"auth-1"⟩, none, some "guest-1"⟩ "guest-2")).1 =
      some "auth-1" :=
  (setUserId_keeps_getUserId_when_authenticated
    ⟨some ⟨"auth-1"⟩, none, some "guest-1"⟩ "guest-2" "auth-1" (by decide)).1

-- =========================================================================
-- Helper lemmas: voice conversation loop
-- =========================================================================

theorem voiceStep_preserves_off (s : VoiceLoopState) (e : VoiceEvent)
    (he : e ≠ .toggle) (h : s.voiceMode = false) :
    (voiceStep s e).voiceMode = false ∧ (voiceStep s e).isListening = s.isListening ∧
    (voiceStep s e).recording = s.recording := by
  cases e with
  | toggle => exact absurd rfl he
  | requestSettles b => simp [voiceStep, h]
  | timerFires =>
    by_cases hp : s.pendingResumes = 0
    · simp [voiceStep, hp, h]
    · simp [voiceStep, hp, startListening, h]

theorem voiceTrace_stays_off (evs : List VoiceEvent) :
    ∀ s : VoiceLoopState, s.voiceMode = false → s.isListening = false → s.recording = false →
      (∀ e ∈ evs, e ≠ VoiceEvent.toggle) →
      ∀ t ∈ voiceTrace s evs, t.voiceMode = false ∧ t.isListening = false ∧ t.recording = false := by
  induction evs with
  | nil =>
    intro s h1 h2 h3 _ t ht
    simp [voiceTrace] at ht
    subst ht
    exact ⟨h1, h2, h3⟩
  | cons e es ih =>
    intro s h1 h2 h3 hno t ht
    simp only [voiceTrace, List.mem_cons] at ht
    rcases ht with rfl | ht
    · exact ⟨h1, h2, h3⟩
    · have hne : e ≠ .toggle := hno e (by simp)
      obtain ⟨p1, p2, p3⟩ := voiceStep_preserves_off s e hne h1
      exact ih (voiceStep s e) p1 (p2.trans h2) (p3.trans h3)
        (fun e' he' => hno e' (by simp [he'])) t ht

/-- C2: ending voice mode (a `toggleVoiceMode` tap while active) makes
every later state of the loop non-listening and non-recording, however
the in-flight request settles (success or error) and whenever the
scheduled resume timers (the 500ms post-playback resume and the 1000ms
error retry) fire: each decision point re-reads the live
`voiceModeRef` flag, so no new capture ever starts. -/
theorem no_listen_after_voice_mode_end (s : VoiceLoopState) (evs : List VoiceEvent)
    (hon : s.voiceMode = true) (hno : ∀ e ∈ evs, e ≠ VoiceEvent.toggle) :
    ∀ t ∈ voiceTrace (voiceStep s .toggle) evs,
      t.isListening = false ∧ t.recording = false := by
  have hend : voiceStep s .toggle = endVoiceMode s := by simp [voiceStep, hon]
  intro t ht
  rw [hend] at ht
  exact (voiceTrace_stays_off evs (endVoiceMode s) rfl rfl rfl hno t ht).2

/-- Witness for `no_listen_after_voice_mode_end`: voice mode is ended
while a request is in flight and a resume timer is pending; after the
request settles and both timers fire, the final state is still not
listening. -/
theorem no_listen_after_voice_mode_end_witness :
    (⟨false, false, false, 0, true⟩ : VoiceLoopState).isListening = false ∧
    (⟨false, false, false, 0, true⟩ : VoiceLoopState).recording = false :=
  no_listen_after_voice_mode_end
    ⟨true, false, false, 1, true⟩
    [.requestSettles true, .timerFires]
    rfl (by decide) ⟨false, false, false, 0, true⟩ (by decide)

-- =========================================================================
-- C3: the voice-error message filter
-- =========================================================================

/-- C3 counterexample: a message that was in the list before the failed
capture but whose content happens to contain `"Processing"` is removed
by the error filter together with the placeholder — the result is
empty, so not every prior message remains. -/
theorem errorFilter_removes_prior_message :
    removeProcessing
      [{ id := "m1", role := .user, content := "My data Processing pipeline", timestamp := 1 },
       processingPlaceholder 2] = [] := by
  decide

/-- C3 (amended): the error filter removes every message whose content
contains the marker `"Processing"`; when no prior message contains the
marker, exactly the optimistic placeholder is removed and all prior
messages remain, unchanged and in order. -/
theorem errorFilter_spares_unmarked_prior (msgs : List Message) (ph : Message)
    (hprior : ∀ m ∈ msgs, containsSub m.content "Processing" = false)
    (hph : containsSub ph.content "Processing" = true) :
    removeProcessing (msgs ++ [ph]) = msgs := by
  unfold removeProcessing
  rw [List.filter_append]
  have h1 : msgs.filter (fun m => !containsSub m.content "Processing") = msgs :=
    List.filter_eq_self.mpr (fun m hm => by simp [hprior m hm])
  have h2 : List.filter (fun m => !containsSub m.content "Processing") [ph] = [] := by
    simp [List.filter_cons, hph]
  rw [h1, h2, List.append_nil]

/-- Witness for `errorFilter_spares_unmarked_prior`: a prior greeting
message survives, the placeholder is removed. -/
theorem errorFilter_spares_unmarked_prior_witness :
    removeProcessing
      [{ id := "m0", role := .assistant, content := "Hello!", timestamp := 0 },
       processingPlaceholder 2] =
      [{ id := "m0", role := .assistant, content := "Hello!", timestamp := 0 }] :=
  errorFilter_spares_unmarked_prior
    [{ id := "m0", role := .assistant, content := "Hello!", timestamp := 0 }]
    (processingPlaceholder 2) (by decide) (by decide)

-- =========================================================================
-- C4 and C5
-- =========================================================================

/-- C4: `startRecording` has no `isRecording` guard, so invoking it
while a capture is in progress is not a no-op: the buffered chunks are
discarded and a second media stream is acquired while the first one is
never stopped. -/
theorem startRecording_while_recording_not_noop :
    (let r : Recorder :=
      { state := { isRecording := true, isProcessing := false, error := none, audioBlob := none },
        chunks := [[7, 7]], recorderActive := true, openStreams := 1 };
     startRecording r ≠ r ∧
     (startRecording r).chunks = [] ∧
     (startRecording r).openStreams = r.openStreams + 1 ∧
     (startRecording r).state.isRecording = true) := by
  decide

/-- C5: with two overlapping playbacks, `stopAllAudio` pauses and
resets only the element tracked by `audioRef` — `playAudio` creates its
elements with `document.createElement` and never attaches them to the
document, so `document.querySelectorAll` cannot see them, and the
earlier element keeps playing. -/
theorem stopAllAudio_leaves_detached_audio_playing :
    (let d := stopAllAudio
      (playAudioStart (playAudioStart { elems := [], audioRef := none, isSpeaking := false } 3) 1);
     d.elems.get? 0 = some { attached := false, paused := false, currentTime := 3 } ∧
     d.elems.get? 1 = some { attached := false, paused := true, currentTime := 0 } ∧
     d.isSpeaking = false) := by
  decide

-- =========================================================================
-- C7 and C8: text message dispatch
-- =========================================================================

/-- C7: for every prior message list, sending `"Hello"` while no request
is outstanding, with the backend replying success and `"Hi!"`, appends
exactly the user message `"Hello"` followed by the assistant message
`"Hi!"` — nothing else is added, removed or duplicated. -/
theorem sendTextMessage_hello_appends_two (msgs : List Message) (input : String)
    (banner : Option String) (welcome : Bool) (now now2 : Nat) :
    (sendTextMessage
        { messages := msgs, inputText := input, isLoading := false,
          errorBanner := banner, showWelcome := welcome }
        "Hello" { success := true, ai_response := some "Hi!", error := none }
        now now2).state.messages =
      msgs ++
        [{ id := "user-" ++ toString now, role := .user, content := "Hello", timestamp := now },
         { id := "assistant-" ++ toString now2, role := .assistant, content := "Hi!",
           timestamp := now2 }] := by
  have htrim : jsTrim "Hello" = "Hello" := by decide
  simp [sendTextMessage, htrim]

/-- C8: text dispatch rejects blank (empty or whitespace-only) input and
rejects submission while a prior request is outstanding: nothing is sent
and the component state is untouched, so no two sends are concurrent. -/
theorem sendTextMessage_rejects_blank_or_busy (c : ChatState) (text : String)
    (resp : TextResponse) (now now2 : Nat)
    (h : jsTrim text = "" ∨ c.isLoading = true) :
    sendTextMessage c text resp now now2 = { state := c, sent := none } := by
  rcases h with h | h <;> simp [sendTextMessage, h]

/-- Witness for `sendTextMessage_rejects_blank_or_busy`: a
whitespace-only input is rejected without touching the state. -/
theorem sendTextMessage_rejects_blank_or_busy_witness :
    sendTextMessage
      { messages := [], inputText := "", isLoading := false,
        errorBanner := none, showWelcome := true }
      "   " { success := true, ai_response := some "Hi!", error := none } 5 6 =
      { state := { messages := [], inputText := "", isLoading := false,
                   errorBanner := none, showWelcome := true },
        sent := none } :=
  sendTextMessage_rejects_blank_or_busy _ _ _ _ _ (Or.inl (by decide))

-- =========================================================================
-- Helper lemmas: playback promises
-- =========================================================================

theorem componentHandle_pending (r : PlayRun) (e : PlayEvent) (h : r.promise = .pending) :
    (componentHandle r e).promise = .resolved ∧
    (componentHandle r e).settleCount = r.settleCount + 1 ∧
    (componentHandle r e).speaking = false := by
  cases e <;> simp [componentHandle, doResolve, h]

theorem componentHandle_settled (r : PlayRun) (e : PlayEvent) (h : r.promise = .resolved) :
    (componentHandle r e).promise = .resolved ∧
    (componentHandle r e).settleCount = r.settleCount ∧
    (componentHandle r e).speaking = false := by
  cases e <;> simp [componentHandle, doResolve, h]

theorem foldl_componentHandle_settled (evs : List PlayEvent) :
    ∀ r : PlayRun, r.promise = .resolved → r.speaking = false →
      (evs.foldl componentHandle r).promise = .resolved ∧
      (evs.foldl componentHandle r).settleCount = r.settleCount ∧
      (evs.foldl componentHandle r).speaking = false := by
  induction evs with
  | nil => intro r h1 h2; exact ⟨h1, rfl, h2⟩
  | cons e es ih =>
    intro r h1 h2
    obtain ⟨p1, p2, p3⟩ := componentHandle_settled r e h1
    obtain ⟨q1, q2, q3⟩ := ih (componentHandle r e) p1 p3
    exact ⟨q1, q2.trans p2, q3⟩

/-- C9: the completion promise of the component's `playAudio` settles
exactly once (resolved) on every payload whenever at least one playback
callback fires, and the speaking flag ends up false; a malformed
payload takes the `catch` path — resolved once, speaking false, no
element or object URL ever created — and the client `playAudio` on a
malformed payload settles exactly once as a rejection. -/
theorem playAudio_settles_once (s : String) (evs : List PlayEvent) (hevs : evs ≠ []) :
    ((playAudio s evs).settleCount = 1 ∧
     (playAudio s evs).promise = PromiseState.resolved ∧
     (playAudio s evs).speaking = false) ∧
    (atobOk s = false →
      playAudio s evs =
        { promise := .resolved, settleCount := 1, speaking := false, urlLive := false } ∧
      (clientPlayAudio s evs).promise = PromiseState.rejected ∧
      (clientPlayAudio s evs).settleCount = 1) := by
  by_cases hab : atobOk s
  · constructor
    · cases evs with
      | nil => exact absurd rfl hevs
      | cons e es =>
        have hpa : playAudio s (e :: es) =
            (e :: es).foldl componentHandle
              { promise := .pending, settleCount := 0, speaking := true, urlLive := true } := by
          simp [playAudio, hab]
        rw [hpa]
        simp only [List.foldl_cons]
        obtain ⟨p1, p2, p3⟩ := componentHandle_pending
          { promise := .pending, settleCount := 0, speaking := true, urlLive := true } e rfl
        obtain ⟨q1, q2, q3⟩ := foldl_componentHandle_settled es _ p1 p3
        exact ⟨q2.trans p2, q1, q3⟩
    · intro habf
      rw [habf] at hab
      exact absurd hab (by simp)
  · have hab' : atobOk s = false := by simpa using hab
    refine ⟨?_, fun _ => ⟨?_, ?_, ?_⟩⟩ <;>
      simp [playAudio, clientPlayAudio, hab', doResolve, doReject]

/-- Witness for `playAudio_settles_once`: a well-formed payload with a
normal completion, and a payload `atob` rejects. -/
theorem playAudio_settles_once_witness :
    (playAudio "aGk=" [PlayEvent.ended]).settleCount = 1 ∧
    (clientPlayAudio "%%" [PlayEvent.ended]).promise = PromiseState.rejected :=
  ⟨(playAudio_settles_once "aGk=" [PlayEvent.ended] (by decide)).1.1,
   ((playAudio_settles_once "%%" [PlayEvent.ended] (by decide)).2 (by decide)).2.1⟩

-- =========================================================================
-- C10: visit streak
-- =========================================================================

theorem updateStreak_inv (today yesterday : String) (st : Option UserStreak) :
    (updateStreak today yesterday st).result.lastVisit = today ∧
    ((updateStreak today yesterday st).store = st ∧
       getStreakData st = (updateStreak today yesterday st).result ∨
     (updateStreak today yesterday st).store = some (updateStreak today yesterday st).result) := by
  unfold updateStreak
  by_cases h : (getStreakData st).lastVisit = today
  · simp [h]
  · by_cases h2 : (getStreakData st).lastVisit = yesterday
    · have hyt : ¬ yesterday = today := fun hy => h (h2.trans hy)
      simp [h, h2, hyt]
    · by_cases h3 : (getStreakData st).lastVisit = ""
      · have het : ¬ ("" = today) := fun hy => h (h3.trans hy)
        have hey : ¬ ("" = yesterday) := fun hy => h2 (h3.trans hy)
        simp [h, h2, h3, het, hey]
      · simp [h, h2, h3]

theorem updateStreak_noWrite (today yesterday : String) (st : Option UserStreak)
    (h : (getStreakData st).lastVisit = today) :
    updateStreak today yesterday st = { result := getStreakData st, store := st, wrote := false } := by
  simp [updateStreak, h]

/-- C10: `updateStreak` is idempotent within a calendar day: a stored
record already stamped with today's date string is returned unchanged
with no write to storage, and running `updateStreak` twice leaves
exactly the record and store of the single run (the second run never
writes). -/
theorem updateStreak_idempotent_same_day (today yesterday : String) (rec : UserStreak)
    (store : Option UserStreak) (hs : store = some rec) (hd : rec.lastVisit = today) :
    updateStreak today yesterday store = { result := rec, store := store, wrote := false } ∧
    ∀ st : Option UserStreak,
      updateStreak today yesterday (updateStreak today yesterday st).store =
        { result := (updateStreak today yesterday st).result,
          store := (updateStreak today yesterday st).store, wrote := false } := by
  constructor
  · subst hs
    simp [updateStreak, getStreakData, hd]
  · intro st
    obtain ⟨hlv, hst⟩ := updateStreak_inv today yesterday st
    rcases hst with ⟨he, hg⟩ | he
    · rw [he, updateStreak_noWrite today yesterday st (by rw [hg]; exact hlv), hg]
    · rw [he, updateStreak_noWrite today yesterday
        (some (updateStreak today yesterday st).result) hlv]
      rfl

/-- Witness for `updateStreak_idempotent_same_day`: a record stamped
today is returned as-is without a write. -/
theorem updateStreak_idempotent_same_day_witness :
    updateStreak "Mon Jan 05 2026" "Sun Jan 04 2026" (some ⟨3, "Mon Jan 05 2026", 7⟩) =
      { result := ⟨3, "Mon Jan 05 2026", 7⟩,
        store := some ⟨3, "Mon Jan 05 2026", 7⟩, wrote := false } :=
  (updateStreak_idempotent_same_day "Mon Jan 05 2026" "Sun Jan 04 2026"
    ⟨3, "Mon Jan 05 2026", 7⟩ (some ⟨3, "Mon Jan 05 2026", 7⟩) rfl rfl).1

end BestFit
